import Mathlib

/-!
Shallow embedding of `src/applications/osgearth_viewer/osgearth_viewer.cpp`
(the osgEarth sample viewer application).

The file is UI glue over the osg / osgEarth libraries.  Library-owned values
(viewpoints, configuration documents, formatted coordinate strings, the world
to map-coordinate transform) are modelled as inputs or as function fields of
a `LibFns` record; the viewer's own control flow (argument reading, the
`main` setup sequence, and each event-handler body) is translated directly
from the source.  A null-pointer dereference by a handler is modelled by the
handler returning `none`.
-/

namespace OsgViewer

/-- A named camera bookmark (`osgEarth::Util::Viewpoint`).  The viewer never
inspects its contents, so it is carried as an object token. -/
structure Viewpoint where
  raw : String
deriving DecidableEq

/-- The config document produced by `Viewpoint::getConfig()`; carried as an
object token. -/
structure ConfigDoc where
  raw : String
deriving DecidableEq

/-- `LatLongFormatter::AngularFormat` values used at lines 144-146 of the
source. -/
inductive AngularFormat
| decimalDegrees
| degreesMinutesSeconds
deriving DecidableEq

/-- A world-space intersection point (`osg::Vec3d`). -/
structure WorldPoint where
  x : ℚ
  y : ℚ
  z : ℚ
deriving DecidableEq

/-- A map-coordinate point (`osg::Vec3d lla`): `x` = longitude, `y` =
latitude, `z` = altitude. -/
structure LLA where
  x : ℚ
  y : ℚ
  z : ℚ
deriving DecidableEq

/-- Library calls whose results the viewer merely forwards: the viewpoint to
config conversion, XML serialization (`XmlDocument::store`), the map's
`worldPointToMapPoint`, and the two coordinate formatters. -/
structure LibFns where
  vpGetConfig : Viewpoint → ConfigDoc
  xmlStore : ConfigDoc → String
  worldToMap : WorldPoint → LLA
  mgrsFormat1m : ℚ → ℚ → String
  latLongFormat : AngularFormat → ℚ → ℕ → String

/-- Whether each of the three process-wide pointers (lines 70-72:
`s_manip`, `s_controlPanel`, `s_sky`) currently holds a non-null value. -/
structure Globals where
  manipSet : Bool
  panelSet : Bool
  skySet : Bool
deriving DecidableEq

/-- The mutable state of the library objects those pointers refer to, plus
the process output streams touched by the handlers. -/
structure MutState where
  manipViewpoint : Viewpoint
  manipLastDuration : ℚ
  panelVisible : Bool
  skyYear : ℤ
  skyMonth : ℤ
  skyDay : ℤ
  skyHours : ℚ
  labelText : String
  stdoutLog : List String
deriving DecidableEq

/-- Whole application state seen by the event handlers. -/
structure AppState where
  globals : Globals
  objs : MutState
deriving DecidableEq

/-- GUI events relevant to the handlers in this file: `KEYDOWN` with a key
code (`ea.getKey()`, ASCII for printable keys), mouse `MOVE` / `DRAG`, and
anything else. -/
inductive Event
| keydown (key : ℕ)
| move
| drag
| other
deriving DecidableEq

/-- `EarthManipulator::setViewpoint(vp, duration)`: records the new
viewpoint and the transition duration on the manipulator. -/
def setViewpointCall (m : MutState) (vp : Viewpoint) (d : ℚ) : MutState :=
  { m with manipViewpoint := vp, manipLastDuration := d }

/-- `ViewpointHandler::handle` (source lines 300-322).  On KEYDOWN it
computes `index = (int)key - (int)'1'`; if `0 <= index < viewpoints.size()`
it calls `s_manip->setViewpoint(viewpoints[index], 4.5)`; otherwise on `'v'`
(118) it prints the current viewpoint's config as XML plus a newline, and on
`'?'` (63) it toggles `s_controlPanel`'s visibility.  The source dereferences
`s_manip` and `s_controlPanel` without null checks; a dereference of a null
pointer yields `none`. -/
def viewpointHandlerHandle (fns : LibFns) (vps : List Viewpoint) (ev : Event)
    (s : AppState) : Option AppState :=
  match ev with
  | .keydown key =>
    let index : ℤ := (key : ℤ) - 49
    if h : 0 ≤ index ∧ index < (vps.length : ℤ) then
      if s.globals.manipSet then
        some { s with
          objs := setViewpointCall s.objs (vps.get ⟨index.toNat, by omega⟩) (4.5 : ℚ) }
      else none
    else if key = 118 then
      if s.globals.manipSet then
        some { s with objs := { s.objs with
          stdoutLog := s.objs.stdoutLog ++
            [fns.xmlStore (fns.vpGetConfig s.objs.manipViewpoint), "\n"] } }
      else none
    else if key = 63 then
      if s.globals.panelSet then
        some { s with objs := { s.objs with panelVisible := !s.objs.panelVisible } }
      else none
    else some s
  | _ => some s

/-- `SkySliderHandler::onValueChanged` (source lines 77-83): calls
`s_sky->setDateTime(2011, 3, 6, value)` with no null check on `s_sky`. -/
def skySliderOnValueChanged (value : ℚ) (s : AppState) : Option AppState :=
  if s.globals.skySet then
    some { s with objs := { s.objs with
      skyYear := 2011, skyMonth := 3, skyDay := 6, skyHours := value } }
  else none

/-- `ClickViewpointHandler::onClick` (source lines 104-107): calls
`s_manip->setViewpoint(_vp, 4.5)` with no null check on `s_manip`. -/
def clickViewpointOnClick (vp : Viewpoint) (s : AppState) : Option AppState :=
  if s.globals.manipSet then
    some { s with objs := setViewpointCall s.objs vp (4.5 : ℚ) }
  else none

/-- The label string assembled into `ss` by `MouseCoordsHandler::handle`
(source lines 135-153) for a map point `lla`: an MGRS rendering when
`s_mgrs` is set, then latitude and longitude through `LatLongFormatter`
whose format is DMS when `s_dms` is set and decimal degrees otherwise. -/
def mouseCoordsLabelText (fns : LibFns) (sMgrs sDms : Bool) (lla : LLA) : String :=
  (if sMgrs then "MGRS: " ++ fns.mgrsFormat1m lla.y lla.x ++ "   " else "")
    ++ "Lat: " ++ fns.latLongFormat
        (if sDms then .degreesMinutesSeconds else .decimalDegrees) lla.y 4
    ++ "  "
    ++ "Lon: " ++ fns.latLongFormat
        (if sDms then .degreesMinutesSeconds else .decimalDegrees) lla.x 5

/-- `MouseCoordsHandler::handle` (source lines 119-164).  `hit` is the first
intersection returned by `view->computeIntersections` under the cursor
(`none` when there is no intersection).  On MOVE or DRAG the label text is
set from the intersection (or cleared); every other event leaves the state
untouched.  The handler is only ever constructed with a non-null map node
(`addMouseCoords` is called inside `if (mapNode)`), so no dereference can
fail. -/
def mouseCoordsHandle (fns : LibFns) (sMgrs sDms : Bool) (ev : Event)
    (hit : Option WorldPoint) (s : AppState) : AppState :=
  match ev with
  | .move | .drag =>
    match hit with
    | some p =>
      { s with objs := { s.objs with
          labelText := mouseCoordsLabelText fns sMgrs sDms (fns.worldToMap p) } }
    | none => { s with objs := { s.objs with labelText := "" } }
  | _ => s

/-- `osg::ArgumentParser::read(flag)` as used at source lines 334-338:
returns whether the flag occurs in the remaining arguments and removes its
first occurrence. -/
def readFlag (fl : String) : List String → Bool × List String
  | [] => (false, [])
  | a :: rest =>
    if a = fl then (true, rest)
    else
      let r := readFlag fl rest
      (r.1, a :: r.2)

/-- `osg::ArgumentParser::read(flag, value)` as used at source line 341:
finds the flag, takes the following argument as its value and removes both;
when the flag is absent or has no following argument it reads nothing. -/
def readStringOption (fl : String) : List String → Option String × List String
  | [] => (none, [])
  | [a] => (none, [a])
  | a :: b :: rest =>
    if a = fl then (some b, rest)
    else
      let r := readStringOption fl (b :: rest)
      (r.1, a :: r.2)

/-- The mode variables set from the command line at source lines 334-341. -/
structure ParsedArgs where
  useAutoClip : Bool
  useSky : Bool
  sOcean : Bool
  sDms : Bool
  sMgrs : Bool
  kmlFile : String
  remaining : List String
deriving DecidableEq

/-- The flag-reading sequence of `main` (source lines 334-341), in source
order: `--autoclip`, `--sky`, `--ocean`, `--dms`, `--mgrs`, `--kml <file>`.
Arguments left over (the positional earth-file path among them) are in
`remaining`. -/
def parseArgs (args : List String) : ParsedArgs :=
  let r1 := readFlag "--autoclip" args
  let r2 := readFlag "--sky" r1.2
  let r3 := readFlag "--ocean" r2.2
  let r4 := readFlag "--dms" r3.2
  let r5 := readFlag "--mgrs" r4.2
  let r6 := readStringOption "--kml" r5.2
  { useAutoClip := r1.1, useSky := r2.1, sOcean := r3.1, sDms := r4.1,
    sMgrs := r5.1, kmlFile := r6.1.getD "", remaining := r6.2 }

/-- The contents of the earth file's `"sky"` external element, when a
non-empty one is present: its optional `"hours"` value. -/
structure SkyConf where
  hours : Option ℚ
deriving DecidableEq

/-- The pieces of `mapNode->externalConfig()` that `main` reads: the `"sky"`
child (`some` exactly when a non-empty one exists), the `"autoclip"` child's
boolean value when that child exists, and the `"viewpoint"` children. -/
structure Externals where
  sky : Option SkyConf
  autoclip : Option Bool
  viewpoints : List Viewpoint
deriving DecidableEq

/-- What `MapNode::findMapNode` yields when it finds a map node: whether the
map is geocentric, and the external config. -/
structure MapNodeInfo where
  isGeocentric : Bool
  externals : Externals
deriving DecidableEq

/-- Source lines 385-388: when the externals have an `"autoclip"` child its
boolean value replaces `useAutoClip` (the flag value acts only as the
fallback); otherwise the flag value stands. -/
def effectiveAutoClip (flagVal : Bool) (ext : Externals) : Bool :=
  match ext.autoclip with
  | some b => b
  | none => flagVal

/-- Source lines 362-369: the sky model is created exactly when the map is
geocentric and either `--sky` was given or the externals carry a non-empty
`"sky"` element. -/
def skyActivated (useSkyFlag : Bool) (info : MapNodeInfo) : Bool :=
  info.isGeocentric && (useSkyFlag || info.externals.sky.isSome)

/-- Source line 371: `skyConf.value("hours", 12.0)` — the `"hours"` value of
the `"sky"` element, defaulting to `12.0` (also when the element itself is
absent and the sky was requested by flag alone). -/
def skyInitialHours (ext : Externals) : ℚ :=
  match ext.sky with
  | some c => c.hours.getD 12
  | none => 12

/-- What the setup part of `main` (source lines 348-431) establishes before
the run loop: the global pointers, the sky's initial `setDateTime` call, the
optional ocean and clip-plane additions, the final values of the `useSky` /
`useAutoClip` locals, which handlers were installed, and the sky-time
slider's construction parameters `(min, max, initial)`. -/
structure SetupResult where
  globals : Globals
  skyInitial : Option (ℤ × ℤ × ℤ × ℚ)
  oceanAdded : Bool
  autoClipAdded : Bool
  finalUseSky : Bool
  finalUseAutoClip : Bool
  viewpointHandlerInstalled : Bool
  slider : Option (ℚ × ℚ × ℚ)
  mouseCoordsAdded : Bool
deriving DecidableEq

/-- The setup sequence of `main` after a successful earth-file load (source
lines 348-431).  `s_manip` is always assigned (line 348).  Everything else
happens only under `if (mapNode)` (line 358): the sky / ocean / autoclip
block only for geocentric maps (line 362), the `ViewpointHandler` only when
`"viewpoint"` children exist (lines 402-408), the control panel when there
are viewpoints or a sky (lines 412-413, with the slider added inside
`createControlPanel` only when `s_sky` is set, lines 214-231), and the
mouse-coordinate overlay whenever the map node exists (line 415). -/
def mainSetup (p : ParsedArgs) (mno : Option MapNodeInfo) : SetupResult :=
  match mno with
  | none =>
    { globals := { manipSet := true, panelSet := false, skySet := false }
    , skyInitial := none
    , oceanAdded := false
    , autoClipAdded := false
    , finalUseSky := p.useSky
    , finalUseAutoClip := p.useAutoClip
    , viewpointHandlerInstalled := false
    , slider := none
    , mouseCoordsAdded := false }
  | some info =>
    let skyC := skyActivated p.useSky info
    let useSky2 := if info.isGeocentric
      then p.useSky || info.externals.sky.isSome else p.useSky
    let autoClip2 := if info.isGeocentric
      then effectiveAutoClip p.useAutoClip info.externals else p.useAutoClip
    let vpAny : Bool := decide (0 < info.externals.viewpoints.length)
    let panel := vpAny || skyC
    { globals := { manipSet := true, panelSet := panel, skySet := skyC }
    , skyInitial :=
        if skyC then some (2011, 3, 6, skyInitialHours info.externals) else none
    , oceanAdded := info.isGeocentric && p.sOcean
    , autoClipAdded := info.isGeocentric && (skyC || p.sOcean || autoClip2)
    , finalUseSky := useSky2
    , finalUseAutoClip := autoClip2
    , viewpointHandlerInstalled := vpAny
    , slider := if skyC then some (0, 24, 18) else none
    , mouseCoordsAdded := true }

/-- The three process-wide pointer variables of source lines 70-72. -/
inductive GVar
| manip
| controlPanel
| sky
deriving DecidableEq

/-- The sequence of assignments to the process-wide pointer variables during
`main` (in program order): none when the earth file fails to load (`main`
returns at line 346 before line 348); otherwise `s_manip` at line 348, then,
only when a map node was found, possibly `s_sky` at line 372 and possibly
`s_controlPanel` at line 235 (reached through line 413). -/
def startupGlobalWrites (loaded : Bool) (p : ParsedArgs)
    (mno : Option MapNodeInfo) : List GVar :=
  if loaded then
    GVar.manip ::
      (match mno with
       | none => []
       | some info =>
         (if skyActivated p.useSky info then [GVar.sky] else []) ++
           (if decide (0 < info.externals.viewpoints.length)
               || skyActivated p.useSky info
            then [GVar.controlPanel] else []))
  else []

/-- The notice lines printed by `usage` (source lines 45-58). -/
def usageLines (msg : String) : List String :=
  [ msg
  , ""
  , "USAGE: osgearth_viewer [options] file.earth"
  , "   --sky           : activates the atmospheric model"
  , "   --autoclip      : activates the auto clip-plane handler"
  , "   --dms           : format coordinates as degrees/minutes/seconds"
  , "   --mgrs          : format coordinates as MGRS"
  , "   --ocean         : display an ocean surface layer, if found" ]

/-- The inputs `main` depends on: the raw argument list, the result of
`osgDB::readNodeFiles` (`none` = load failure) together with — in the
success case — the result of `MapNode::findMapNode` on the loaded node, and
the value the viewer's run loop eventually returns. -/
structure MainInput where
  args : List String
  loadResult : Option (Option MapNodeInfo)
  runResult : ℤ
deriving DecidableEq

/-- What `main` produces: its return value, the notice lines it printed, and
(in the success case) the setup it performed. -/
structure MainOutcome where
  result : ℤ
  notices : List String
  setup : Option SetupResult
deriving DecidableEq

/-- `main` (source lines 327-449): parse the flags, load the earth file; on
failure return `usage("Unable to load earth model.")` = `-1` (lines
344-346); on success perform the setup and return `viewer.run()` (line
449). -/
def mainRun (inp : MainInput) : MainOutcome :=
  let p := parseArgs inp.args
  match inp.loadResult with
  | none =>
    { result := -1
    , notices := usageLines "Unable to load earth model."
    , setup := none }
  | some mno =>
    { result := inp.runResult
    , notices := []
    , setup := some (mainSetup p mno) }

/-! Concrete fixtures used by witnesses and counterexamples. -/

/-- A concrete instantiation of the library calls. -/
def fns0 : LibFns :=
  { vpGetConfig := fun v => ⟨v.raw⟩
  , xmlStore := fun c => "<viewpoint>" ++ c.raw ++ "</viewpoint>"
  , worldToMap := fun p => ⟨p.x, p.y, p.z⟩
  , mgrsFormat1m := fun _ _ => "31U"
  , latLongFormat := fun _ _ _ => "0.0" }

/-- A distinct concrete viewpoint for each index. -/
def vpOfNat (n : ℕ) : Viewpoint := ⟨toString n⟩

/-- A concrete list of `n` viewpoints. -/
def vpList (n : ℕ) : List Viewpoint := (List.range n).map vpOfNat

/-- A concrete object-state fixture. -/
def mut0 : MutState :=
  { manipViewpoint := ⟨"home"⟩
  , manipLastDuration := 0
  , panelVisible := true
  , skyYear := 2011
  , skyMonth := 3
  , skyDay := 6
  , skyHours := 12
  , labelText := ""
  , stdoutLog := [] }

/-- A state in which all three global pointers are set. -/
def stateAll : AppState := { globals := ⟨true, true, true⟩, objs := mut0 }

/-- A state in which the sky pointer is null. -/
def stateNoSky : AppState := { globals := ⟨true, true, false⟩, objs := mut0 }

/-- Parsed arguments with every flag off. -/
def pPlain : ParsedArgs :=
  { useAutoClip := false, useSky := false, sOcean := false, sDms := false
  , sMgrs := false, kmlFile := "", remaining := ["file.earth"] }

/-- A geocentric map whose externals carry a sky element (hours 18) and two
viewpoints. -/
def info0 : MapNodeInfo :=
  { isGeocentric := true
  , externals := { sky := some ⟨some 18⟩, autoclip := none, viewpoints := vpList 2 } }

/-- A failing `main` input: the earth file does not load. -/
def inpFail : MainInput :=
  { args := ["missing.earth"], loadResult := none, runResult := 0 }

/-- A succeeding `main` input whose run loop returns 7. -/
def inpOk : MainInput :=
  { args := ["good.earth"], loadResult := some (some info0), runResult := 7 }

/-! Theorems: one per claim of the specification. -/

/-- C1: `main` has exactly one failure path — exactly when `readNodeFiles`
returns null, the usage message listing the options is printed and `main`
returns the negative status `-1`; whenever the scene file loads, `main`
skips that path, performs the setup and returns the run loop's result. -/
theorem claim_C1_main_single_failure_path (inp : MainInput) :
    (inp.loadResult = none →
      (mainRun inp).result = -1 ∧ (mainRun inp).result < 0 ∧
      (mainRun inp).notices = usageLines "Unable to load earth model." ∧
      (mainRun inp).setup = none) ∧
    (∀ mno, inp.loadResult = some mno →
      (mainRun inp).result = inp.runResult ∧
      (mainRun inp).notices = [] ∧
      (mainRun inp).setup = some (mainSetup (parseArgs inp.args) mno)) := by
  constructor
  · intro h
    simp [mainRun, h]
  · intro mno h
    simp [mainRun, h]

/-- C1 witness: evaluated on a failing and on a succeeding concrete input. -/
theorem claim_C1_witness :
    (mainRun inpFail).result = -1 ∧
    (mainRun inpFail).notices = usageLines "Unable to load earth model." ∧
    (mainRun inpOk).result = 7 := by
  have hf := (claim_C1_main_single_failure_path inpFail).1 rfl
  have hs := (claim_C1_main_single_failure_path inpOk).2 (some info0) rfl
  exact ⟨hf.1, hf.2.2.1, hs.1⟩

/-- C2: on KEYDOWN, whenever the key `k` satisfies
`0 ≤ k - '1' < viewpoints.size()`, the handler calls `setViewpoint` with the
viewpoint at index `k - '1'` and transition duration `4.5`; for every digit
key (`'0'` = 48 through `'9'` = 57) outside that range the state is left
entirely unchanged. -/
theorem claim_C2_digit_key_selects_viewpoint (fns : LibFns)
    (vps : List Viewpoint) (k : ℕ) (s : AppState) :
    (∀ (h1 : 49 ≤ k) (h2 : k - 49 < vps.length),
      s.globals.manipSet = true →
      viewpointHandlerHandle fns vps (.keydown k) s =
        some { s with
          objs := setViewpointCall s.objs (vps.get ⟨k - 49, h2⟩) (4.5 : ℚ) }) ∧
    (48 ≤ k → k ≤ 57 → ¬(49 ≤ k ∧ k - 49 < vps.length) →
      viewpointHandlerHandle fns vps (.keydown k) s = some s) := by
  constructor
  · intro h1 h2 hm
    have hc : 0 ≤ (k : ℤ) - 49 ∧ (k : ℤ) - 49 < (vps.length : ℤ) := by omega
    have hidx : (⟨((k : ℤ) - 49).toNat, by omega⟩ : Fin vps.length) = ⟨k - 49, h2⟩ :=
      Fin.ext (show ((k : ℤ) - 49).toNat = k - 49 by omega)
    simp only [viewpointHandlerHandle]
    rw [dif_pos hc, hm]
    simp only [if_true]
    rw [hidx]
  · intro hd1 hd2 hout
    have hc : ¬(0 ≤ (k : ℤ) - 49 ∧ (k : ℤ) - 49 < (vps.length : ℤ)) := by omega
    have hv : ¬(k = 118) := by omega
    have hq : ¬(k = 63) := by omega
    simp only [viewpointHandlerHandle]
    rw [dif_neg hc, if_neg hv, if_neg hq]

/-- C2 witness: with three viewpoints loaded, key `'2'` (50) selects the
viewpoint at index 1 with duration 4.5, and key `'0'` (48) changes
nothing. -/
theorem claim_C2_witness :
    viewpointHandlerHandle fns0 (vpList 3) (.keydown 50) stateAll =
      some { stateAll with
        objs := setViewpointCall stateAll.objs (vpOfNat 1) (4.5 : ℚ) } ∧
    viewpointHandlerHandle fns0 (vpList 3) (.keydown 48) stateAll = some stateAll := by
  constructor
  · have h := (claim_C2_digit_key_selects_viewpoint fns0 (vpList 3) 50 stateAll).1
      (by decide) (by decide) rfl
    exact h
  · exact (claim_C2_digit_key_selects_viewpoint fns0 (vpList 3) 48 stateAll).2
      (by decide) (by decide) (by decide)

/-- Helper for C3: the `ViewpointHandler` never null-dereferences in a state
where the manipulator and control-panel pointers are both set. -/
lemma viewpointHandlerHandle_isSome (fns : LibFns) (vps : List Viewpoint)
    (ev : Event) (s : AppState) (hm : s.globals.manipSet = true)
    (hp : s.globals.panelSet = true) :
    (viewpointHandlerHandle fns vps ev s).isSome = true := by
  cases ev with
  | keydown k =>
    simp only [viewpointHandlerHandle, hm, hp]
    split_ifs <;> simp
  | move => rfl
  | drag => rfl
  | other => rfl

/-- C3 counterexample: the sky-time slider handler (source line 81) performs
no null check — in a state whose sky pointer is null, `onValueChanged`
dereferences the null `s_sky` (modelled as `none`) instead of leaving the
state unchanged as the claim's guard would imply. -/
theorem claim_C3_counterexample :
    stateNoSky.globals.skySet = false ∧
    skySliderOnValueChanged 5 stateNoSky = none := by
  exact ⟨rfl, rfl⟩

/-- C3 (amended): the map node is null-checked (`if (mapNode)`, line 358),
but the sky-slider handler and the `'?'` branch dereference `s_sky` and
`s_controlPanel` without null checks; no null dereference occurs at runtime
only because the setup in `main` registers those handlers solely when the
object exists — the `ViewpointHandler` is installed only when viewpoints
exist, which forces the control panel to be created, and the slider is
created only under `if (s_sky)`. -/
theorem claim_C3_null_safety_via_registration (p : ParsedArgs)
    (info : MapNodeInfo) (fns : LibFns) (ev : Event) (value : ℚ)
    (s : AppState) (hg : s.globals = (mainSetup p (some info)).globals) :
    ((mainSetup p (some info)).viewpointHandlerInstalled = true →
      (viewpointHandlerHandle fns info.externals.viewpoints ev s).isSome = true) ∧
    ((mainSetup p (some info)).slider.isSome = true →
      (skySliderOnValueChanged value s).isSome = true) ∧
    (mainSetup p none).viewpointHandlerInstalled = false ∧
    (mainSetup p none).slider = none := by
  have hm : s.globals.manipSet = true := by
    rw [hg]; simp [mainSetup]
  refine ⟨?_, ?_, rfl, rfl⟩
  · intro hvp
    have hvp2 : decide (0 < info.externals.viewpoints.length) = true := by
      simpa [mainSetup] using hvp
    have hp : s.globals.panelSet = true := by
      rw [hg]; simp [mainSetup, hvp2]
    exact viewpointHandlerHandle_isSome fns _ ev s hm hp
  · intro hsl
    have hsky : skyActivated p.useSky info = true := by
      by_contra hn
      simp [mainSetup, Bool.eq_false_iff.mpr hn] at hsl
    have hs : s.globals.skySet = true := by
      rw [hg]; simp [mainSetup, hsky]
    simp [skySliderOnValueChanged, hs]

/-- C3 witness: with two viewpoints and an active sky, both installed
handlers run without a null dereference. -/
theorem claim_C3_witness :
    (viewpointHandlerHandle fns0 (vpList 2) (.keydown 63) stateAll).isSome = true ∧
    (skySliderOnValueChanged 5 stateAll).isSome = true := by
  have h := claim_C3_null_safety_via_registration pPlain info0 fns0
    (.keydown 63) 5 stateAll (by decide)
  exact ⟨h.1 (by decide), h.2.1 (by decide)⟩

/-- C4 counterexample: with fifteen viewpoints loaded, the `'?'` key (ASCII
63) gives `index = 63 - '1' = 14 < 15`, so the handler selects viewpoint 15
and the control panel's visibility is NOT negated (it stays `true`). -/
theorem claim_C4_counterexample :
    stateAll.objs.panelVisible = true ∧
    (viewpointHandlerHandle fns0 (vpList 15) (.keydown 63) stateAll).map
      (fun s => s.objs.panelVisible) = some true ∧
    (viewpointHandlerHandle fns0 (vpList 15) (.keydown 63) stateAll).map
      (fun s => s.objs.manipViewpoint) = some (vpOfNat 14) := by
  refine ⟨rfl, ?_, ?_⟩ <;> decide

/-- C4 (amended): whenever fewer than 15 viewpoints are loaded (so that key
63 is not captured by the viewpoint-index branch) and the control panel
exists, the `'?'` key sets the panel's visibility to the negation of its
current visibility, changes nothing else, and pressing `'?'` twice restores
the original state exactly. -/
theorem claim_C4_question_toggles_panel (fns : LibFns) (vps : List Viewpoint)
    (s : AppState) (hlen : vps.length ≤ 14) (hp : s.globals.panelSet = true) :
    viewpointHandlerHandle fns vps (.keydown 63) s =
      some { s with objs := { s.objs with panelVisible := !s.objs.panelVisible } } ∧
    viewpointHandlerHandle fns vps (.keydown 63)
        { s with objs := { s.objs with panelVisible := !s.objs.panelVisible } } =
      some s := by
  have hc : ¬(0 ≤ ((63 : ℕ) : ℤ) - 49 ∧ ((63 : ℕ) : ℤ) - 49 < (vps.length : ℤ)) := by
    push_neg
    intro _
    omega
  constructor
  · simp only [viewpointHandlerHandle]
    rw [dif_neg hc]
    norm_num
    rw [hp]
    simp
  · simp only [viewpointHandlerHandle]
    rw [dif_neg hc]
    norm_num
    rw [show ({ s with objs := { s.objs with panelVisible := !s.objs.panelVisible } } :
        AppState).globals.panelSet = true from hp]
    simp [Bool.not_not]

/-- C4 witness: with two viewpoints, `'?'` flips the panel from visible to
hidden and a second press restores it. -/
theorem claim_C4_witness :
    viewpointHandlerHandle fns0 (vpList 2) (.keydown 63) stateAll =
      some { stateAll with
        objs := { stateAll.objs with panelVisible := !stateAll.objs.panelVisible } } ∧
    viewpointHandlerHandle fns0 (vpList 2) (.keydown 63)
        { stateAll with
          objs := { stateAll.objs with panelVisible := !stateAll.objs.panelVisible } } =
      some stateAll := by
  exact claim_C4_question_toggles_panel fns0 (vpList 2) stateAll (by decide) rfl

/-- C5 counterexample: with seventy viewpoints loaded, the `'v'` key (ASCII
118) gives `index = 118 - '1' = 69 < 70`, so the handler selects viewpoint
70 and nothing is written to standard output. -/
theorem claim_C5_counterexample :
    stateAll.objs.stdoutLog = [] ∧
    (viewpointHandlerHandle fns0 (vpList 70) (.keydown 118) stateAll).map
      (fun s => s.objs.stdoutLog) = some [] ∧
    (viewpointHandlerHandle fns0 (vpList 70) (.keydown 118) stateAll).map
      (fun s => s.objs.manipViewpoint) = some (vpOfNat 69) := by
  refine ⟨rfl, ?_, ?_⟩ <;> decide

/-- C5 (amended): whenever fewer than 70 viewpoints are loaded (so that key
118 is not captured by the viewpoint-index branch), the `'v'` key obtains
the manipulator's current viewpoint, converts it to a config document,
writes that document as XML to standard output followed by a newline, and
changes nothing else — in particular the viewpoint itself is untouched. -/
theorem claim_C5_v_prints_viewpoint_xml (fns : LibFns) (vps : List Viewpoint)
    (s : AppState) (hlen : vps.length ≤ 69) (hm : s.globals.manipSet = true) :
    viewpointHandlerHandle fns vps (.keydown 118) s =
      some { s with objs := { s.objs with
        stdoutLog := s.objs.stdoutLog ++
          [fns.xmlStore (fns.vpGetConfig s.objs.manipViewpoint), "\n"] } } := by
  have hc : ¬(0 ≤ ((118 : ℕ) : ℤ) - 49 ∧ ((118 : ℕ) : ℤ) - 49 < (vps.length : ℤ)) := by
    push_neg
    intro _
    omega
  simp only [viewpointHandlerHandle]
  rw [dif_neg hc]
  norm_num
  rw [hm]
  simp

/-- C5 witness: with two viewpoints, `'v'` appends the XML-rendered config
of the current viewpoint and a newline to standard output. -/
theorem claim_C5_witness :
    viewpointHandlerHandle fns0 (vpList 2) (.keydown 118) stateAll =
      some { stateAll with objs := { stateAll.objs with
        stdoutLog := ["<viewpoint>home</viewpoint>", "\n"] } } := by
  have h := claim_C5_v_prints_viewpoint_xml fns0 (vpList 2) stateAll (by decide) rfl
  exact h

/-- C6: on every mouse MOVE or DRAG, when the ray under the cursor hits the
terrain the label is set to the formatted map coordinates of the first
intersection — an MGRS prefix exactly when `--mgrs` is set, DMS latitude
and longitude exactly when `--dms` is set and decimal degrees otherwise —
when there is no intersection the label is cleared to the empty string, and
every event of any other type leaves the state untouched. -/
theorem claim_C6_mouse_coords_label (fns : LibFns) (sMgrs sDms : Bool)
    (s : AppState) :
    (∀ p, mouseCoordsHandle fns sMgrs sDms .move (some p) s =
      { s with objs := { s.objs with labelText :=
          ((if sMgrs then
              "MGRS: " ++ fns.mgrsFormat1m (fns.worldToMap p).y (fns.worldToMap p).x ++ "   "
            else "")
            ++ "Lat: " ++ fns.latLongFormat
              (if sDms then .degreesMinutesSeconds else .decimalDegrees)
              (fns.worldToMap p).y 4
            ++ "  "
            ++ "Lon: " ++ fns.latLongFormat
              (if sDms then .degreesMinutesSeconds else .decimalDegrees)
              (fns.worldToMap p).x 5) } }) ∧
    (∀ p, mouseCoordsHandle fns sMgrs sDms .drag (some p) s =
      mouseCoordsHandle fns sMgrs sDms .move (some p) s) ∧
    (mouseCoordsHandle fns sMgrs sDms .move none s =
      { s with objs := { s.objs with labelText := "" } }) ∧
    (mouseCoordsHandle fns sMgrs sDms .drag none s =
      { s with objs := { s.objs with labelText := "" } }) ∧
    (∀ k hit, mouseCoordsHandle fns sMgrs sDms (.keydown k) hit s = s) ∧
    (∀ hit, mouseCoordsHandle fns sMgrs sDms .other hit s = s) := by
  exact ⟨fun _ => rfl, fun _ => rfl, rfl, rfl, fun _ _ => rfl, fun _ => rfl⟩

/-- Helper for C7: `read(flag)` reports exactly whether the flag occurs. -/
lemma readFlag_fst_iff (fl : String) (args : List String) :
    (readFlag fl args).1 = true ↔ fl ∈ args := by
  induction args with
  | nil => simp [readFlag]
  | cons a rest ih =>
    by_cases h : a = fl
    · subst h
      simp [readFlag]
    · simp [readFlag, h, ih, Ne.symm h]

/-- Helper for C7: `read(flag)` does not disturb occurrences of a different
flag. -/
lemma readFlag_snd_mem (fl fl2 : String) (hne : fl2 ≠ fl)
    (args : List String) :
    fl2 ∈ (readFlag fl args).2 ↔ fl2 ∈ args := by
  induction args with
  | nil => simp [readFlag]
  | cons a rest ih =>
    by_cases h : a = fl
    · subst h
      simp [readFlag, hne]
    · simp [readFlag, h, ih]

/-- Helper for C7: `read(flag)` keeps a later `fl2 :: v :: _` pair adjacent
(with `fl2` still not occurring earlier) as long as neither `fl2` nor `v` is
the flag being removed. -/
lemma readFlag_shape (fl fl2 v : String) (hne : fl2 ≠ fl) (hv : v ≠ fl) :
    ∀ l1 l2 : List String, fl2 ∉ l1 →
      ∃ l1' l2' : List String,
        (readFlag fl (l1 ++ fl2 :: v :: l2)).2 = l1' ++ fl2 :: v :: l2' ∧
        fl2 ∉ l1' := by
  intro l1
  induction l1 with
  | nil =>
    intro l2 _
    refine ⟨[], (readFlag fl l2).2, ?_, by simp⟩
    simp [readFlag, hne, hv]
  | cons a l1t ih =>
    intro l2 h1
    have h1t : fl2 ∉ l1t := fun hm => h1 (List.mem_cons_of_mem _ hm)
    by_cases ha : a = fl
    · subst ha
      refine ⟨l1t, l2, ?_, h1t⟩
      simp [readFlag]
    · obtain ⟨l1', l2', he, hn⟩ := ih l2 h1t
      refine ⟨a :: l1', l2', ?_, ?_⟩
      · simp [readFlag, ha, he]
      · intro hm
        rcases List.mem_cons.mp hm with h | h
        · exact h1 (h ▸ List.mem_cons_self _ _)
        · exact hn h

/-- Helper for C7: `read(flag, value)` finds the first occurrence of the
flag and reads the argument right after it. -/
lemma readStringOption_shape (fl v : String) :
    ∀ l1 l2 : List String, fl ∉ l1 →
      (readStringOption fl (l1 ++ fl :: v :: l2)).1 = some v := by
  intro l1
  induction l1 with
  | nil =>
    intro l2 _
    simp [readStringOption]
  | cons a l1t ih =>
    intro l2 h1
    have ha : ¬ a = fl := fun he => h1 (by simp [he])
    have h1t : fl ∉ l1t := fun hm => h1 (List.mem_cons_of_mem _ hm)
    rcases hl : l1t ++ fl :: v :: l2 with _ | ⟨b, rest⟩
    · exact absurd hl (by simp)
    · have hc : (a :: l1t) ++ fl :: v :: l2 = a :: b :: rest := by
        rw [List.cons_append, hl]
      rw [hc]
      simp [readStringOption, ha]
      rw [← hl]
      exact ih l2 h1t

/-- Helper for C7: `read(flag, value)` on arguments not containing the flag
reads nothing and leaves the arguments as they were. -/
lemma readStringOption_of_not_mem (fl : String) (args : List String)
    (h : fl ∉ args) : readStringOption fl args = (none, args) := by
  induction args with
  | nil => rfl
  | cons a rest ih =>
    simp only [List.mem_cons, not_or] at h
    cases rest with
    | nil => simp [readStringOption]
    | cons b rest2 =>
      have ha : ¬ a = fl := fun he => h.1 he.symm
      simp [readStringOption, ha, ih h.2]

/-- C7 counterexample: the `--autoclip` flag does not set the auto-clip mode
for the rest of the run — with `--autoclip` on the command line but an earth
file whose externals carry `<autoclip>false</autoclip>`, the flag's value is
replaced at source lines 385-388 and no clip-plane callback is installed. -/
theorem claim_C7_counterexample :
    (parseArgs ["--autoclip", "good.earth"]).useAutoClip = true ∧
    (mainSetup (parseArgs ["--autoclip", "good.earth"])
      (some { isGeocentric := true
            , externals := { sky := none, autoclip := some false
                           , viewpoints := [] } })).finalUseAutoClip = false ∧
    (mainSetup (parseArgs ["--autoclip", "good.earth"])
      (some { isGeocentric := true
            , externals := { sky := none, autoclip := some false
                           , viewpoints := [] } })).autoClipAdded = false := by
  refine ⟨?_, ?_, ?_⟩ <;> decide

/-- C7 (amended): the flag-reading sequence recognizes exactly `--sky`,
`--autoclip`, `--dms`, `--mgrs`, `--ocean` and `--kml <file>` (everything
else, the positional earth-file path included, is left in the remaining
arguments); each boolean mode variable is set exactly when its flag occurs,
`--kml` absent leaves the KML path empty, and `--kml` followed by a value
(itself not one of the boolean flag strings) sets the KML path to that
value.  The DMS, MGRS, ocean and KML
variables then hold for the rest of the run, while for a geocentric map the
earth file's externals may later override the sky variable (forced on by a
non-empty `"sky"` element) and the autoclip variable (replaced through
`effectiveAutoClip` by an `"autoclip"` element). -/
theorem claim_C7_flag_parsing (args : List String) (info : MapNodeInfo) :
    ((parseArgs args).useAutoClip = true ↔ "--autoclip" ∈ args) ∧
    ((parseArgs args).useSky = true ↔ "--sky" ∈ args) ∧
    ((parseArgs args).sOcean = true ↔ "--ocean" ∈ args) ∧
    ((parseArgs args).sDms = true ↔ "--dms" ∈ args) ∧
    ((parseArgs args).sMgrs = true ↔ "--mgrs" ∈ args) ∧
    ("--kml" ∉ args → (parseArgs args).kmlFile = "") ∧
    (∀ l1 v l2, args = l1 ++ "--kml" :: v :: l2 → "--kml" ∉ l1 →
      v ∉ ["--autoclip", "--sky", "--ocean", "--dms", "--mgrs"] →
      (parseArgs args).kmlFile = v) ∧
    (info.isGeocentric = true →
      (mainSetup (parseArgs args) (some info)).finalUseAutoClip =
        effectiveAutoClip (parseArgs args).useAutoClip info.externals ∧
      (mainSetup (parseArgs args) (some info)).finalUseSky =
        ((parseArgs args).useSky || info.externals.sky.isSome)) := by
  refine ⟨?_, ?_, ?_, ?_, ?_, ?_, ?_, ?_⟩
  · simp [parseArgs, readFlag_fst_iff]
  · simp [parseArgs, readFlag_fst_iff,
      readFlag_snd_mem "--autoclip" "--sky" (by decide)]
  · simp [parseArgs, readFlag_fst_iff,
      readFlag_snd_mem "--autoclip" "--ocean" (by decide),
      readFlag_snd_mem "--sky" "--ocean" (by decide)]
  · simp [parseArgs, readFlag_fst_iff,
      readFlag_snd_mem "--autoclip" "--dms" (by decide),
      readFlag_snd_mem "--sky" "--dms" (by decide),
      readFlag_snd_mem "--ocean" "--dms" (by decide)]
  · simp [parseArgs, readFlag_fst_iff,
      readFlag_snd_mem "--autoclip" "--mgrs" (by decide),
      readFlag_snd_mem "--sky" "--mgrs" (by decide),
      readFlag_snd_mem "--ocean" "--mgrs" (by decide),
      readFlag_snd_mem "--dms" "--mgrs" (by decide)]
  · intro h
    have h5 : "--kml" ∉ ((readFlag "--mgrs" ((readFlag "--dms" ((readFlag "--ocean"
        ((readFlag "--sky" ((readFlag "--autoclip" args).2)).2)).2)).2)).2) := by
      rw [readFlag_snd_mem "--mgrs" "--kml" (by decide),
        readFlag_snd_mem "--dms" "--kml" (by decide),
        readFlag_snd_mem "--ocean" "--kml" (by decide),
        readFlag_snd_mem "--sky" "--kml" (by decide),
        readFlag_snd_mem "--autoclip" "--kml" (by decide)]
      exact h
    simp [parseArgs, readStringOption_of_not_mem _ _ h5]
  · intro l1 v l2 hargs hnotin hvfl
    subst hargs
    simp only [List.mem_cons, List.not_mem_nil, not_or] at hvfl
    obtain ⟨hv1, hv2, hv3, hv4, hv5, -⟩ := hvfl
    obtain ⟨a1, b1, e1, n1⟩ :=
      readFlag_shape "--autoclip" "--kml" v (by decide) hv1 l1 l2 hnotin
    obtain ⟨a2, b2, e2, n2⟩ :=
      readFlag_shape "--sky" "--kml" v (by decide) hv2 a1 b1 n1
    obtain ⟨a3, b3, e3, n3⟩ :=
      readFlag_shape "--ocean" "--kml" v (by decide) hv3 a2 b2 n2
    obtain ⟨a4, b4, e4, n4⟩ :=
      readFlag_shape "--dms" "--kml" v (by decide) hv4 a3 b3 n3
    obtain ⟨a5, b5, e5, n5⟩ :=
      readFlag_shape "--mgrs" "--kml" v (by decide) hv5 a4 b4 n4
    simp only [parseArgs]
    rw [e1, e2, e3, e4, e5, readStringOption_shape "--kml" v a5 b5 n5]
    rfl
  · intro hgeo
    constructor <;> simp [mainSetup, hgeo]

/-- C7 witness: evaluated on `["--sky", "--mgrs", "x.earth"]` and on
`["--sky", "--kml", "doc.kml", "x.earth"]` against the geocentric fixture
map. -/
theorem claim_C7_witness :
    (parseArgs ["--sky", "--mgrs", "x.earth"]).useSky = true ∧
    (parseArgs ["--sky", "--mgrs", "x.earth"]).sMgrs = true ∧
    (parseArgs ["--sky", "--mgrs", "x.earth"]).useAutoClip = false ∧
    (parseArgs ["--sky", "--mgrs", "x.earth"]).kmlFile = "" ∧
    (parseArgs ["--sky", "--kml", "doc.kml", "x.earth"]).kmlFile = "doc.kml" ∧
    (mainSetup (parseArgs ["--sky", "--mgrs", "x.earth"])
      (some info0)).finalUseSky = true := by
  have h := claim_C7_flag_parsing ["--sky", "--mgrs", "x.earth"] info0
  have hk := claim_C7_flag_parsing ["--sky", "--kml", "doc.kml", "x.earth"] info0
  refine ⟨?_, ?_, ?_, ?_, ?_, ?_⟩
  · exact h.2.1.mpr (by decide)
  · exact h.2.2.2.2.1.mpr (by decide)
  · exact Bool.eq_false_iff.mpr (fun ht => absurd (h.1.mp ht) (by decide))
  · exact h.2.2.2.2.2.1 (by decide)
  · exact hk.2.2.2.2.2.2.1 ["--sky"] "doc.kml" ["x.earth"] rfl (by decide) (by decide)
  · rw [(h.2.2.2.2.2.2.2 rfl).2]; decide

/-- C8: each process-wide pointer (`s_manip`, `s_controlPanel`, `s_sky`) is
written at most once, and only during the startup sequence; every event
handler leaves all three pointer variables exactly as startup left them. -/
theorem claim_C8_globals_write_once (loaded : Bool) (p : ParsedArgs)
    (mno : Option MapNodeInfo) :
    (∀ v : GVar, (startupGlobalWrites loaded p mno).count v ≤ 1) ∧
    (∀ fns vps ev s s2, viewpointHandlerHandle fns vps ev s = some s2 →
      s2.globals = s.globals) ∧
    (∀ value s s2, skySliderOnValueChanged value s = some s2 →
      s2.globals = s.globals) ∧
    (∀ vp s s2, clickViewpointOnClick vp s = some s2 →
      s2.globals = s.globals) ∧
    (∀ fns m d ev hit s, (mouseCoordsHandle fns m d ev hit s).globals =
      s.globals) := by
  refine ⟨?_, ?_, ?_, ?_, ?_⟩
  · intro v
    cases mno with
    | none =>
      simp only [startupGlobalWrites]
      split_ifs <;> cases v <;> decide
    | some info =>
      simp only [startupGlobalWrites]
      split_ifs <;> cases v <;> decide
  · intro fns vps ev s s2 h
    cases ev with
    | keydown k =>
      simp only [viewpointHandlerHandle] at h
      repeat' split at h
      all_goals cases h
      all_goals rfl
    | move =>
      simp only [viewpointHandlerHandle] at h
      injection h with h3
      subst h3
      rfl
    | drag =>
      simp only [viewpointHandlerHandle] at h
      injection h with h3
      subst h3
      rfl
    | other =>
      simp only [viewpointHandlerHandle] at h
      injection h with h3
      subst h3
      rfl
  · intro value s s2 h
    simp only [skySliderOnValueChanged] at h
    split at h
    · injection h with h3
      subst h3
      rfl
    · cases h
  · intro vp s s2 h
    simp only [clickViewpointOnClick] at h
    split at h
    · injection h with h3
      subst h3
      rfl
    · cases h
  · intro fns m d ev hit s
    cases ev <;> cases hit <;> rfl

/-- C8 witness: the startup write trace of a run with a sky and two
viewpoints writes `s_manip` at most once, and a concrete slider event
leaves the pointer variables untouched. -/
theorem claim_C8_witness :
    (startupGlobalWrites true pPlain (some info0)).count GVar.manip ≤ 1 ∧
    ({ stateAll with objs := { stateAll.objs with
        skyYear := 2011, skyMonth := 3, skyDay := 6, skyHours := 5 } } :
      AppState).globals = stateAll.globals := by
  have h := claim_C8_globals_write_once true pPlain (some info0)
  refine ⟨h.1 GVar.manip, ?_⟩
  exact h.2.2.1 5 stateAll _ rfl

/-- C9: for a geocentric map whose externals carry a non-empty `"sky"`
element, the sky model is activated whatever the `--sky` flag says, with its
initial hour the element's `"hours"` value defaulting to 12.0; for a
non-geocentric map the sky model is never created, `--sky` or not. -/
theorem claim_C9_sky_auto_activation (p : ParsedArgs) (info : MapNodeInfo) :
    (∀ c : SkyConf, info.isGeocentric = true → info.externals.sky = some c →
      (mainSetup p (some info)).globals.skySet = true ∧
      (mainSetup p (some info)).skyInitial =
        some (2011, 3, 6, c.hours.getD 12)) ∧
    (info.isGeocentric = false →
      (mainSetup p (some info)).globals.skySet = false ∧
      (mainSetup p (some info)).skyInitial = none) := by
  constructor
  · intro c hg hs
    have hact : skyActivated p.useSky info = true := by
      simp [skyActivated, hg, hs]
    constructor
    · simp [mainSetup, hact]
    · simp [mainSetup, hact, skyInitialHours, hs]
  · intro hg
    have hact : skyActivated p.useSky info = false := by
      simp [skyActivated, hg]
    constructor <;> simp [mainSetup, hact]

/-- C9 witness: with no `--sky` flag, the geocentric fixture map with a sky
element whose hours value is 18 gets an active sky initialized to hour 18. -/
theorem claim_C9_witness :
    (mainSetup pPlain (some info0)).globals.skySet = true ∧
    (mainSetup pPlain (some info0)).skyInitial =
      some (2011, 3, 6, (18 : ℚ)) ∧
    pPlain.useSky = false := by
  have h := (claim_C9_sky_auto_activation pPlain info0).1 ⟨some 18⟩ rfl rfl
  exact ⟨h.1, h.2, rfl⟩

/-- C10: whenever the sky-time slider is created it is created with range
0.0 to 24.0 and initial value 18.0, and every value change sets the sky's
date/time to the fixed date 6 March 2011 with the slider value as the hour —
the handler can never alter the date. -/
theorem claim_C10_sky_slider_fixed_date (p : ParsedArgs) (info : MapNodeInfo)
    (v : ℚ) (s : AppState) :
    ((mainSetup p (some info)).slider.isSome = true →
      (mainSetup p (some info)).slider = some (0, 24, 18)) ∧
    (s.globals.skySet = true →
      skySliderOnValueChanged v s =
        some { s with objs := { s.objs with
          skyYear := 2011, skyMonth := 3, skyDay := 6, skyHours := v } }) := by
  constructor
  · intro h
    by_cases hact : skyActivated p.useSky info = true
    · simp [mainSetup, hact]
    · simp [mainSetup, Bool.eq_false_iff.mpr hact] at h
  · intro hs
    simp [skySliderOnValueChanged, hs]

/-- C10 witness: the fixture run creates the slider as `(0, 24, 18)` and a
slider value of 7 sets the sky to 6 March 2011, hour 7. -/
theorem claim_C10_witness :
    (mainSetup pPlain (some info0)).slider = some (0, 24, 18) ∧
    skySliderOnValueChanged 7 stateAll =
      some { stateAll with objs := { stateAll.objs with
        skyYear := 2011, skyMonth := 3, skyDay := 6, skyHours := 7 } } := by
  have h := claim_C10_sky_slider_fixed_date pPlain info0 7 stateAll
  exact ⟨h.1 (by decide), h.2 rfl⟩

end OsgViewer
